import Mathlib

/-!
Verification development for the `octopod-cli` workflow script
(`octopod-cli.py`): a shallow embedding of its authentication/retry
wrapper, its polling loops, its transport selection and its
order-processing orchestration, together with theorems about the
behaviour those functions exhibit.

Modelling conventions (all definitions are translated from the source):
* Python `None` / strings are modelled with `Option String`; Python
  truthiness tests on such values (`if x:`) are modelled by `pyTruthy`.
* The network is an explicit environment: each server interaction is a
  field of an environment structure giving the outcome of the n-th such
  interaction.  Success bodies that the script immediately destructures
  (token pairs, file records, order records) are modelled as well-formed
  structures, matching the script's assumption that 2xx bodies parse.
* Exceptions are values: `ReqError` models `requests` exceptions
  (`httpError` for `requests.exceptions.HTTPError` raised by
  `raise_for_status`, `connError` for any other
  `requests.exceptions.RequestException` such as a connection failure),
  and `PyErr` adds Python `RuntimeError`.  Exception *payloads* mirror
  exactly the data interpolated into the corresponding message string.
* Wall-clock time advances only at `time.sleep`; queries are
  instantaneous, so the n-th iteration of a loop that sleeps `p` seconds
  per iteration runs at elapsed time `n * p`.  Poll intervals are
  required positive (the scripted defaults are 30 and 60 seconds).
-/

/-- Python truthiness of an optional string: `None` and `""` are falsy. -/
def pyTruthy : Option String → Bool
  | none => false
  | some s => !s.isEmpty

/-- A well-formed token response body: `{"access": ..., "refresh": ...}`. -/
structure TokenPair where
  access : String
  refresh : String
deriving DecidableEq, Repr

/-- The process-wide `TOKEN_STORE` global: both fields start as `None`. -/
structure TokenStore where
  access : Option String
  refresh : Option String
deriving DecidableEq, Repr

/-- `requests` library exceptions (all subclasses of `RequestException`):
`httpError s` is `requests.exceptions.HTTPError` for a response with
status `s` (raised by `raise_for_status`), `connError` is any other
request-level failure (e.g. `ConnectionError`). -/
inductive ReqError
  | httpError (status : Nat)
  | connError
deriving DecidableEq, Repr

/-- A Python exception as raised by this script: either a `requests`
exception or a `RuntimeError` carrying its message. -/
inductive PyErr
  | reqError (e : ReqError)
  | runtimeError (msg : String)
deriving DecidableEq, Repr

/-- Server-side behaviour of the two authentication endpoints:
`authSrv` is the outcome of `POST /users/auth` with the stored
credentials, `refreshSrv r` the outcome of `POST /users/refresh` with
refresh token `r`. -/
structure AuthEnv where
  authSrv : Except ReqError TokenPair
  refreshSrv : String → Except ReqError TokenPair

/-- `auth()`: exchanges the stored username/password for a new token
pair.  `raise_for_status` raises before any assignment; on success both
`TOKEN_STORE` fields are overwritten from the same response. -/
def auth (env : AuthEnv) (st : TokenStore) : Except PyErr Unit × TokenStore :=
  match env.authSrv with
  | .error e => (.error (.reqError e), st)
  | .ok tokens => (.ok (), { access := some tokens.access, refresh := some tokens.refresh })

/-- `refresh_tokens()`: raises `RuntimeError` when no refresh token is
held (`if not TOKEN_STORE["refresh"]`), otherwise calls the refresh
endpoint; `raise_for_status` raises on 4xx/5xx, and on success both
`TOKEN_STORE` fields are overwritten from the same response. -/
def refresh_tokens (env : AuthEnv) (st : TokenStore) : Except PyErr Unit × TokenStore :=
  if !pyTruthy st.refresh then
    (.error (.runtimeError "No refresh token available; cannot refresh."), st)
  else
    match env.refreshSrv (st.refresh.getD "") with
    | .error e => (.error (.reqError e), st)
    | .ok tokens => (.ok (), { access := some tokens.access, refresh := some tokens.refresh })

/-- Rendering of `f"Bearer {TOKEN_STORE['access']}"`: Python renders a
missing token as the string `"None"`. -/
def bearerOf : Option String → String
  | none => "None"
  | some s => s

/-- Environment of `safe_api_call`: in addition to the auth endpoints,
`doReq i a` is the status of the `i`-th issue of the wrapped request,
where `a = none` means the call's `kwargs` carry no `headers` dict and
`a = some tok` means its `Authorization` header is `Bearer tok`. -/
structure CallEnv extends AuthEnv where
  doReq : Nat → Option String → Nat

/-- Observable actions of one `safe_api_call` invocation, in order:
each HTTP issue of the wrapped request (with the auth header it carried
and the status it got), each HTTP call of the refresh endpoint, and each
HTTP call of the username/password auth endpoint. -/
inductive CallEvent
  | request (auth : Option String) (status : Nat)
  | refreshHttp
  | authHttp
deriving DecidableEq, Repr

/-- `safe_api_call(func, url, max_retries=1, **kwargs)`.
Issues the request; `raise_for_status` succeeds iff status < 400.  On a
401 with retries remaining it runs `refresh_tokens()` catching only
`requests.exceptions.RequestException` (so the `RuntimeError` raised
when no refresh token is held propagates uncaught); on a caught refresh
failure it falls back to `auth()`; then it rewrites
`kwargs["headers"]["Authorization"]` (only if a `headers` dict is
present) and recurses with `max_retries - 1`.  Any non-401 error status,
and a 401 with no retries left, raises `HTTPError`.
Returns (outcome, final token store, event trace). -/
def safe_api_call (env : CallEnv) (kwargs : Option String) (max_retries : Nat)
    (st : TokenStore) (reqIdx : Nat) : Except PyErr Nat × TokenStore × List CallEvent :=
  let status := env.doReq reqIdx kwargs
  if status < 400 then
    (.ok status, st, [.request kwargs status])
  else if status = 401 then
    match max_retries with
    | 0 => (.error (.reqError (.httpError status)), st, [.request kwargs status])
    | m + 1 =>
      match refresh_tokens env.toAuthEnv st with
      | (.ok _, st1) =>
        let r := safe_api_call env (kwargs.map fun _ => bearerOf st1.access) m st1 (reqIdx + 1)
        (r.1, r.2.1, .request kwargs status :: .refreshHttp :: r.2.2)
      | (.error (.reqError _), st1) =>
        match auth env.toAuthEnv st1 with
        | (.ok _, st2) =>
          let r := safe_api_call env (kwargs.map fun _ => bearerOf st2.access) m st2 (reqIdx + 1)
          (r.1, r.2.1, .request kwargs status :: .refreshHttp :: .authHttp :: r.2.2)
        | (.error e, st2) =>
          (.error e, st2, [.request kwargs status, .refreshHttp, .authHttp])
      | (.error (.runtimeError msg), st1) =>
        (.error (.runtimeError msg), st1, [.request kwargs status])
  else
    (.error (.reqError (.httpError status)), st, [.request kwargs status])

/-- One record of the `GET /data/files?file={name}` result list, with
the fields this script reads.  `created_at` is modelled as a timestamp
totally ordered as Python orders the JSON values it sorts by. -/
structure FileRec where
  id : String
  created_at : Nat
deriving DecidableEq, Repr

/-- Stable insertion of a record into a list sorted by `created_at`
descending: the record goes before the first element whose key is not
greater, so earlier-listed records win ties. -/
def insertByCreatedDesc (r : FileRec) : List FileRec → List FileRec
  | [] => [r]
  | x :: xs =>
    if x.created_at ≤ r.created_at then r :: x :: xs
    else x :: insertByCreatedDesc r xs

/-- `results.sort(key=lambda x: x["created_at"], reverse=True)`:
Python's stable sort by key, descending, modelled by stable insertion
sort with the same order and tie-breaking. -/
def sortByCreatedDesc : List FileRec → List FileRec
  | [] => []
  | x :: xs => insertByCreatedDesc x (sortByCreatedDesc xs)

/-- `find_newest_file_id_by_name(file_name)`, applied to the `results`
list the server returned for that name: `None` when the list is empty,
otherwise the `id` of the first record after sorting by `created_at`
descending. -/
def find_newest_file_id_by_name (results : List FileRec) : Option String :=
  if results.isEmpty then none
  else (sortByCreatedDesc results).head?.map (fun r => r.id)

/-- `wait_for_file_to_appear` loop body, entered with `n` prior
iterations done (so at elapsed time `n * poll_sec`): while
`time.time() - start < timeout_sec`, query (`find n` is the result of
the `n`-th query, `if file_id:` is a truthiness test), returning the id
if truthy, else sleeping `poll_sec`; returns `None` on window
exhaustion.  Also returns the total number of queries made. -/
def wait_for_file_to_appear_go (find : Nat → Option String) (timeout_sec poll_sec : Nat)
    (hp : 0 < poll_sec) (n : Nat) : Option String × Nat :=
  if h : n * poll_sec < timeout_sec then
    if pyTruthy (find n) then (find n, n + 1)
    else wait_for_file_to_appear_go find timeout_sec poll_sec hp (n + 1)
  else (none, n)
termination_by timeout_sec - n * poll_sec
decreasing_by
  have h2 : (n + 1) * poll_sec = n * poll_sec + poll_sec := by ring
  omega

/-- `wait_for_file_to_appear(file_name, timeout_sec, poll_sec)`:
the loop started at elapsed time 0. -/
def wait_for_file_to_appear (find : Nat → Option String) (timeout_sec poll_sec : Nat)
    (hp : 0 < poll_sec) : Option String × Nat :=
  wait_for_file_to_appear_go find timeout_sec poll_sec hp 0

/-- The fields of a file record that `check_file_status` extracts. -/
structure FileStatus where
  check_completed : Bool
  acceptable : Bool
  amount_of_samples : Int
deriving DecidableEq, Repr

/-- The readiness test of `wait_for_file_validation`:
`check_completed and acceptable and amount_of_samples > 0`. -/
def fileValidated (s : FileStatus) : Bool :=
  s.check_completed && s.acceptable && decide (0 < s.amount_of_samples)

/-- Outcome of `wait_for_file_validation`; each failure constructor
carries exactly the data interpolated into the raised exception's
message: `RuntimeError(f"File with ID {file_id} not found on server.")`
and `TimeoutError(f"File did not validate within {timeout_minutes}
minutes.")`. -/
inductive ValidationResult
  | validated
  | notFound (file_id : String)
  | timedOut (timeout_minutes : Nat)
deriving DecidableEq, Repr

/-- `wait_for_file_validation` loop body at iteration `n` (elapsed time
`n * poll_interval`): query status (`status n` is the `n`-th
`check_file_status` result, `none` when the server's result list is
empty); `None` raises `RuntimeError` at once; a validated status
returns; then `if time.time() - start_time > timeout_minutes * 60`
raises `TimeoutError`; otherwise sleep and repeat.  Also returns the
index of the iteration on which the loop ended. -/
def wait_for_file_validation_go (status : Nat → Option FileStatus) (file_id : String)
    (poll_interval : Nat) (hp : 0 < poll_interval) (timeout_minutes : Nat) (n : Nat) :
    ValidationResult × Nat :=
  match status n with
  | none => (.notFound file_id, n)
  | some s =>
    if fileValidated s then (.validated, n)
    else if timeout_minutes * 60 < n * poll_interval then (.timedOut timeout_minutes, n)
    else wait_for_file_validation_go status file_id poll_interval hp timeout_minutes (n + 1)
termination_by timeout_minutes * 60 + 1 - n * poll_interval
decreasing_by
  have h2 : (n + 1) * poll_interval = n * poll_interval + poll_interval := by ring
  omega

/-- `wait_for_file_validation(file_id, poll_interval, timeout_minutes)`:
the loop started at elapsed time 0. -/
def wait_for_file_validation (status : Nat → Option FileStatus) (file_id : String)
    (poll_interval : Nat) (hp : 0 < poll_interval) (timeout_minutes : Nat) :
    ValidationResult × Nat :=
  wait_for_file_validation_go status file_id poll_interval hp timeout_minutes 0

/-- One entry of an order's `result_types` list as returned by the
server: a plain string, a JSON object (dict of string fields), or a
value of any other shape. -/
inductive RTItem
  | str (s : String)
  | dict (fields : List (String × String))
  | otherVal (tag : String)
deriving DecidableEq, Repr

/-- The fields of an order record that `check_order_status` extracts. -/
structure OrderInfo where
  status : String
  result_types : List RTItem
deriving DecidableEq, Repr

/-- Outcome of `wait_for_order_completion`; each failure constructor
carries exactly the data interpolated into the raised exception's
message: `RuntimeError(f"Order with ID {order_id} not found.")`,
`RuntimeError(f"Order {order_id} is {status}. Stopping.")` and
`TimeoutError(f"Order {order_id} did not complete within
{timeout_minutes} minutes.")`. -/
inductive OrderWaitResult
  | completed (rtypes : List RTItem)
  | notFound (order_id : String)
  | orderFailed (order_id : String) (status : String)
  | timedOut (order_id : String) (timeout_minutes : Nat)
deriving DecidableEq, Repr

/-- `wait_for_order_completion` loop body at iteration `n` (elapsed
time `n * poll_interval`): query (`info n` is the `n`-th
`check_order_status` result); `None` raises `RuntimeError` at once;
`status in ["Completed", "Reports failed"]` returns `result_types`;
`status in ["Failed", "Canceled"]` raises `RuntimeError` at once; then
the elapsed-time check may raise `TimeoutError`; otherwise sleep and
repeat.  Also returns the index of the iteration on which the loop
ended. -/
def wait_for_order_completion_go (info : Nat → Option OrderInfo) (order_id : String)
    (poll_interval : Nat) (hp : 0 < poll_interval) (timeout_minutes : Nat) (n : Nat) :
    OrderWaitResult × Nat :=
  match info n with
  | none => (.notFound order_id, n)
  | some i =>
    if i.status = "Completed" ∨ i.status = "Reports failed" then (.completed i.result_types, n)
    else if i.status = "Failed" ∨ i.status = "Canceled" then (.orderFailed order_id i.status, n)
    else if timeout_minutes * 60 < n * poll_interval then (.timedOut order_id timeout_minutes, n)
    else wait_for_order_completion_go info order_id poll_interval hp timeout_minutes (n + 1)
termination_by timeout_minutes * 60 + 1 - n * poll_interval
decreasing_by
  have h2 : (n + 1) * poll_interval = n * poll_interval + poll_interval := by ring
  omega

/-- `wait_for_order_completion(order_id, poll_interval,
timeout_minutes)`: the loop started at elapsed time 0. -/
def wait_for_order_completion (info : Nat → Option OrderInfo) (order_id : String)
    (poll_interval : Nat) (hp : 0 < poll_interval) (timeout_minutes : Nat) :
    OrderWaitResult × Nat :=
  wait_for_order_completion_go info order_id poll_interval hp timeout_minutes 0

/-- The `result_types` normalization loop of `process_order`:
`isinstance(item, dict) and "type" in item` appends `item["type"]`;
`isinstance(item, str)` appends the item; anything else is logged
("Skipping unknown result type item") and dropped. -/
def parseResultTypes : List RTItem → List String
  | [] => []
  | item :: rest =>
    match item with
    | .dict fields =>
      match fields.lookup "type" with
      | some v => v :: parseResultTypes rest
      | none => parseResultTypes rest
    | .str s => s :: parseResultTypes rest
    | .otherVal _ => parseResultTypes rest

/-- The download loop of `process_order`: for each parsed result type,
call `download_result`; `except requests.HTTPError` logs and skips that
type only, while any other exception propagates and ends the loop (and
the run).  Returns the loop's outcome and, in order, every attempted
type with the outcome of its attempt. -/
def downloadLoop (download : String → Except PyErr Unit) :
    List String → Except PyErr Unit × List (String × Except PyErr Unit)
  | [] => (.ok (), [])
  | rt :: rest =>
    match download rt with
    | .ok () =>
      let r := downloadLoop download rest
      (r.1, (rt, .ok ()) :: r.2)
    | .error (.reqError (.httpError s)) =>
      let r := downloadLoop download rest
      (r.1, (rt, .error (.reqError (.httpError s))) :: r.2)
    | .error e => (.error e, [(rt, .error e)])

/-- Environment of `process_order`: the `n`-th `check_file_status`
result, the outcome of `submit_order` (the new order's id), the `n`-th
`check_order_status` result, and the outcome of
`download_result(order_id, rt, download_folder)` for each result type
`rt`. -/
structure WorkflowEnv where
  fileStatus : Nat → Option FileStatus
  submitOrder : Except PyErr String
  orderInfo : Nat → Option OrderInfo
  download : String → Except PyErr Unit

/-- Why a `process_order` run aborted: an exception out of the file
validation wait, of `submit_order`, of the order-completion wait, or an
uncaught exception out of a `download_result` call. -/
inductive AbortErr
  | validationErr (r : ValidationResult)
  | submitErr (e : PyErr)
  | orderErr (r : OrderWaitResult)
  | downloadCrash (e : PyErr)
deriving DecidableEq, Repr

/-- `process_order(file_id, model_name, download_folder,
poll_interval)`: wait for validation (timeout_minutes=300), submit the
order, wait for completion (timeout_minutes=300), normalize
`result_types`, then download each normalized type, skipping only
`requests.HTTPError` failures.  Returns the run outcome together with
the ordered list of download attempts. -/
def process_order (env : WorkflowEnv) (file_id : String) (poll_interval : Nat)
    (hp : 0 < poll_interval) :
    Except AbortErr Unit × List (String × Except PyErr Unit) :=
  match (wait_for_file_validation env.fileStatus file_id poll_interval hp 300).1 with
  | .notFound f => (.error (.validationErr (.notFound f)), [])
  | .timedOut m => (.error (.validationErr (.timedOut m)), [])
  | .validated =>
    match env.submitOrder with
    | .error e => (.error (.submitErr e), [])
    | .ok order_id =>
      match (wait_for_order_completion env.orderInfo order_id poll_interval hp 300).1 with
      | .notFound o => (.error (.orderErr (.notFound o)), [])
      | .orderFailed o s => (.error (.orderErr (.orderFailed o s)), [])
      | .timedOut o m => (.error (.orderErr (.timedOut o m)), [])
      | .completed raw =>
        let parsed := parseResultTypes raw
        let r := downloadLoop env.download parsed
        match r.1 with
        | .ok () => (.ok (), r.2)
        | .error e => (.error (.downloadCrash e), r.2)

/-- The local file handed to `find_or_upload_file`: its path, its
`os.path.basename`, and its `os.path.getsize` in bytes.  (The script
compares `size / (1024*1024) <= 50` in float arithmetic; division by
the power of two `2^20` is exact for any realistic size, so the
comparison equals `sizeBytes ≤ 50 * 1024 * 1024`.) -/
structure LocalFile where
  path : String
  base : String
  sizeBytes : Nat
deriving DecidableEq, Repr

/-- `MAX_HTTP_SIZE_MB` from the script header. -/
def MAX_HTTP_SIZE_MB : Nat := 50

/-- `SFTP_REFLECTION_TIMEOUT_SEC` from the script header. -/
def SFTP_REFLECTION_TIMEOUT_SEC : Nat := 300

/-- `SFTP_REFLECTION_POLL_SEC` from the script header. -/
def SFTP_REFLECTION_POLL_SEC : Nat := 30

/-- The SFTP connection arguments passed to `find_or_upload_file`. -/
structure SftpCfg where
  host : String
  user : String
  folder : String
  password : String
  keyfile : String
deriving DecidableEq, Repr

/-- Observable actions of `find_or_upload_file`, in order: the
`check_exists` server query by name, a `upload_file_http` HTTP upload,
an `sftp_upload` put of `remoteName` into `folder` on `host`, and each
query of the post-SFTP reflection poll. -/
inductive UpAction
  | queryByName (name : String)
  | httpUp (path : String)
  | sftpPut (host : String) (user : String) (folder : String) (remoteName : String)
  | reflectQuery (name : String) (iter : Nat)
deriving DecidableEq, Repr

/-- Errors of `find_or_upload_file`: a propagated exception from one of
the transports, or `RuntimeError(f"After SFTP upload, the file
'{base}' didn't appear in the API within {timeout}s.")`. -/
inductive UpErr
  | pyErr (e : PyErr)
  | reflectionTimeout (base : String) (timeout_sec : Nat)
deriving DecidableEq, Repr

/-- Environment of `find_or_upload_file`: the server's result list for
the name query made before any upload, the outcome of
`upload_file_http` (the new file's id), the outcome of `sftp_upload`,
and the server's result list for the `n`-th reflection query after the
SFTP upload. -/
structure UpEnv where
  filesAtStart : String → List FileRec
  httpUpload : Except PyErr String
  sftpResult : Except PyErr Unit
  filesAfterSftp : Nat → String → List FileRec

/-- The check run by each reflection-poll query after an SFTP upload:
`find_newest_file_id_by_name(file_basename)` against the server's list
at that query. -/
def reflectFind (env : UpEnv) (base : String) : Nat → Option String :=
  fun n => find_newest_file_id_by_name (env.filesAfterSftp n base)

/-- The post-SFTP reflection wait exactly as `find_or_upload_file`
invokes it: `wait_for_file_to_appear(file_basename,
SFTP_REFLECTION_TIMEOUT_SEC, SFTP_REFLECTION_POLL_SEC)`. -/
def reflectWait (env : UpEnv) (base : String) : Option String × Nat :=
  wait_for_file_to_appear (reflectFind env base) SFTP_REFLECTION_TIMEOUT_SEC
    SFTP_REFLECTION_POLL_SEC (by decide)

/-- `find_or_upload_file(local_file_path, check_exists, ...)`:
optionally reuse the newest same-name server file (`if existing_id:`
truthiness); otherwise (`if not file_id:`) choose the transport by
size — HTTP upload when `size_mb <= MAX_HTTP_SIZE_MB`, else SFTP upload
of the basename into the configured folder followed by
`wait_for_file_to_appear`, raising `RuntimeError` when the reflection
window closes (`if not new_id:`).  Returns the file id and the ordered
action trace. -/
def find_or_upload_file (env : UpEnv) (lf : LocalFile) (check_exists : Bool)
    (cfg : SftpCfg) : Except UpErr String × List UpAction :=
  let preActs : List UpAction := if check_exists then [.queryByName lf.base] else []
  let file_id : Option String :=
    if check_exists then
      let existing_id := find_newest_file_id_by_name (env.filesAtStart lf.base)
      if pyTruthy existing_id then existing_id else none
    else none
  if pyTruthy file_id then
    (.ok (file_id.getD ""), preActs)
  else
    if lf.sizeBytes ≤ MAX_HTTP_SIZE_MB * 1024 * 1024 then
      match env.httpUpload with
      | .ok fid => (.ok fid, preActs ++ [.httpUp lf.path])
      | .error e => (.error (.pyErr e), preActs ++ [.httpUp lf.path])
    else
      match env.sftpResult with
      | .error e =>
        (.error (.pyErr e), preActs ++ [.sftpPut cfg.host cfg.user cfg.folder lf.base])
      | .ok () =>
        let found := reflectWait env lf.base
        let acts := preActs ++ [.sftpPut cfg.host cfg.user cfg.folder lf.base]
          ++ (List.range found.2).map (fun i => UpAction.reflectQuery lf.base i)
        if pyTruthy found.1 then (.ok (found.1.getD ""), acts)
        else (.error (.reflectionTimeout lf.base SFTP_REFLECTION_TIMEOUT_SEC), acts)

/-! ## Helper lemmas about the descending sort -/

theorem mem_insertByCreatedDesc (a r : FileRec) (l : List FileRec) :
    a ∈ insertByCreatedDesc r l ↔ a = r ∨ a ∈ l := by
  induction l with
  | nil => simp [insertByCreatedDesc]
  | cons x xs ih =>
    by_cases h : x.created_at ≤ r.created_at
    · simp only [insertByCreatedDesc, if_pos h, List.mem_cons]
    · simp only [insertByCreatedDesc, if_neg h, List.mem_cons, ih]
      tauto

theorem pairwise_insertByCreatedDesc (r : FileRec) (l : List FileRec)
    (hl : l.Pairwise (fun a b => b.created_at ≤ a.created_at)) :
    (insertByCreatedDesc r l).Pairwise (fun a b => b.created_at ≤ a.created_at) := by
  induction l with
  | nil => simp [insertByCreatedDesc]
  | cons x xs ih =>
    rcases List.pairwise_cons.mp hl with ⟨hx, hxs⟩
    by_cases h : x.created_at ≤ r.created_at
    · simp only [insertByCreatedDesc, if_pos h]
      refine List.pairwise_cons.mpr ⟨?_, hl⟩
      intro b hb
      rcases List.mem_cons.mp hb with rfl | hb
      · exact h
      · exact le_trans (hx b hb) h
    · simp only [insertByCreatedDesc, if_neg h]
      refine List.pairwise_cons.mpr ⟨?_, ih hxs⟩
      intro b hb
      rcases (mem_insertByCreatedDesc b r xs).mp hb with rfl | hb
      · omega
      · exact hx b hb

theorem mem_sortByCreatedDesc (a : FileRec) (l : List FileRec) :
    a ∈ sortByCreatedDesc l ↔ a ∈ l := by
  induction l with
  | nil => simp [sortByCreatedDesc]
  | cons x xs ih =>
    simp only [sortByCreatedDesc, mem_insertByCreatedDesc, List.mem_cons, ih]

theorem pairwise_sortByCreatedDesc (l : List FileRec) :
    (sortByCreatedDesc l).Pairwise (fun a b => b.created_at ≤ a.created_at) := by
  induction l with
  | nil => simp [sortByCreatedDesc]
  | cons x xs ih => exact pairwise_insertByCreatedDesc x _ ih

/-- `find_newest_file_id_by_name` on a non-empty server result list
returns the id of a listed record of maximal `created_at`. -/
theorem find_newest_spec (results : List FileRec) (hne : results ≠ []) :
    ∃ r ∈ results, find_newest_file_id_by_name results = some r.id ∧
      ∀ x ∈ results, x.created_at ≤ r.created_at := by
  have hs : sortByCreatedDesc results ≠ [] := by
    cases results with
    | nil => exact absurd rfl hne
    | cons x xs =>
      intro hcon
      have hx : x ∈ sortByCreatedDesc (x :: xs) :=
        (mem_sortByCreatedDesc x _).mpr (List.mem_cons_self x xs)
      rw [hcon] at hx
      exact absurd hx (List.not_mem_nil x)
  obtain ⟨r, t, hrt⟩ := List.exists_cons_of_ne_nil hs
  refine ⟨r, ?_, ?_, ?_⟩
  · exact (mem_sortByCreatedDesc r results).mp (hrt ▸ List.mem_cons_self r t)
  · have hisEmpty : results.isEmpty = false := by
      cases results with
      | nil => exact absurd rfl hne
      | cons x xs => rfl
    simp [find_newest_file_id_by_name, hisEmpty, hrt]
  · intro x hx
    have hx' : x ∈ sortByCreatedDesc results := (mem_sortByCreatedDesc x results).mpr hx
    rw [hrt] at hx'
    rcases List.mem_cons.mp hx' with rfl | hx'
    · exact le_refl _
    · have hp := pairwise_sortByCreatedDesc results
      rw [hrt] at hp
      exact (List.pairwise_cons.mp hp).1 x hx'

/-! ## Claim C2 -/

/-- C2: for every execution of `auth` and of `refresh_tokens`, the
process-wide token state is modified only when the server responds with
success, in which case both fields are replaced together with the
values of the same response; on any failure both fields retain exactly
their prior values, so the store never pairs tokens from different
exchanges. -/
theorem c2_token_state_atomic (env : AuthEnv) (st : TokenStore) :
    (∀ e, env.authSrv = .error e → auth env st = (.error (.reqError e), st)) ∧
    (∀ tp, env.authSrv = .ok tp →
      auth env st = (.ok (), { access := some tp.access, refresh := some tp.refresh })) ∧
    (pyTruthy st.refresh = false →
      refresh_tokens env st =
        (.error (.runtimeError "No refresh token available; cannot refresh."), st)) ∧
    (∀ e, pyTruthy st.refresh = true → env.refreshSrv (st.refresh.getD "") = .error e →
      refresh_tokens env st = (.error (.reqError e), st)) ∧
    (∀ tp, pyTruthy st.refresh = true → env.refreshSrv (st.refresh.getD "") = .ok tp →
      refresh_tokens env st =
        (.ok (), { access := some tp.access, refresh := some tp.refresh })) ∧
    ((auth env st).2 = st ∨
      ∃ tp, env.authSrv = .ok tp ∧
        (auth env st).2 = { access := some tp.access, refresh := some tp.refresh }) ∧
    ((refresh_tokens env st).2 = st ∨
      ∃ tp, env.refreshSrv (st.refresh.getD "") = .ok tp ∧
        (refresh_tokens env st).2 = { access := some tp.access, refresh := some tp.refresh }) := by
  refine ⟨?_, ?_, ?_, ?_, ?_, ?_, ?_⟩
  · intro e he; simp [auth, he]
  · intro tp htp; simp [auth, htp]
  · intro hf; simp [refresh_tokens, hf]
  · intro e ht he; simp [refresh_tokens, ht, he]
  · intro tp ht htp; simp [refresh_tokens, ht, htp]
  · cases h : env.authSrv with
    | error e => left; simp [auth, h]
    | ok tp => right; exact ⟨tp, rfl, by simp [auth, h]⟩
  · by_cases ht : pyTruthy st.refresh
    · cases h : env.refreshSrv (st.refresh.getD "") with
      | error e => left; simp [refresh_tokens, ht, h]
      | ok tp => right; exact ⟨tp, rfl, by simp [refresh_tokens, ht, h]⟩
    · left; simp [refresh_tokens, Bool.not_eq_true _ ▸ ht]

/-- Witness for C2 at a concrete environment and store. -/
theorem c2_witness :
    auth ⟨.ok ⟨"A1", "R1"⟩, fun _ => .ok ⟨"A2", "R2"⟩⟩ ⟨some "a0", some "r0"⟩
      = (.ok (), ⟨some "A1", some "R1"⟩) ∧
    refresh_tokens ⟨.ok ⟨"A1", "R1"⟩, fun _ => .ok ⟨"A2", "R2"⟩⟩ ⟨some "a0", some "r0"⟩
      = (.ok (), ⟨some "A2", some "R2"⟩) := by
  constructor
  · exact (c2_token_state_atomic ⟨.ok ⟨"A1", "R1"⟩, fun _ => .ok ⟨"A2", "R2"⟩⟩
      ⟨some "a0", some "r0"⟩).2.1 ⟨"A1", "R1"⟩ rfl
  · exact (c2_token_state_atomic ⟨.ok ⟨"A1", "R1"⟩, fun _ => .ok ⟨"A2", "R2"⟩⟩
      ⟨some "a0", some "r0"⟩).2.2.2.2.1 ⟨"A2", "R2"⟩ (by decide) rfl

theorem pyTruthy_some (s : String) : pyTruthy (some s) = true ↔ s ≠ "" := by
  simp only [pyTruthy, Bool.not_eq_true']
  rw [← Bool.not_eq_true, String.isEmpty_iff s]

theorem pyTruthy_none : pyTruthy none = false := rfl

/-! ## Claim C4 -/

/-- C4: when `find_or_upload_file` runs with the check-exists flag set
and the server's list for the file's base name holds at least one
record (with well-formed, non-empty ids), it returns the id of a
matching record of maximal `created_at`, and its action trace is the
one name query — no HTTP upload, no SFTP upload, no reflection poll. -/
theorem c4_reuse_newest_no_upload (env : UpEnv) (lf : LocalFile) (cfg : SftpCfg)
    (hne : env.filesAtStart lf.base ≠ [])
    (hids : ∀ r ∈ env.filesAtStart lf.base, r.id ≠ "") :
    ∃ r ∈ env.filesAtStart lf.base,
      (∀ x ∈ env.filesAtStart lf.base, x.created_at ≤ r.created_at) ∧
      find_or_upload_file env lf true cfg = (.ok r.id, [.queryByName lf.base]) := by
  obtain ⟨r, hr, hfind, hmax⟩ := find_newest_spec _ hne
  refine ⟨r, hr, hmax, ?_⟩
  have htr : pyTruthy (some r.id) = true := (pyTruthy_some r.id).mpr (hids r hr)
  simp [find_or_upload_file, hfind, htr]

/-- Witness for C4 at a concrete server list with two records. -/
theorem c4_witness :
    ∃ r ∈ [FileRec.mk "idA" 5, FileRec.mk "idB" 9],
      (∀ x ∈ [FileRec.mk "idA" 5, FileRec.mk "idB" 9], x.created_at ≤ r.created_at) ∧
      find_or_upload_file
        ⟨fun _ => [FileRec.mk "idA" 5, FileRec.mk "idB" 9], .ok "x", .ok (), fun _ _ => []⟩
        ⟨"/tmp/f.vcf", "f.vcf", 100⟩ true ⟨"h", "u", "fold", "", ""⟩
        = (.ok r.id, [.queryByName "f.vcf"]) :=
  c4_reuse_newest_no_upload
    ⟨fun _ => [FileRec.mk "idA" 5, FileRec.mk "idB" 9], .ok "x", .ok (), fun _ _ => []⟩
    ⟨"/tmp/f.vcf", "f.vcf", 100⟩ ⟨"h", "u", "fold", "", ""⟩
    (by simp) (by simp)

/-! ## Claim C7 -/

/-- C7: at any iteration of the order-completion wait that observes a
status, a status in the terminal failure set raises the order-failed
error on that iteration — whatever the remaining budget, and not
through the timeout payload; a status in the terminal success set
returns the order's `result_types` on that iteration; any other status
makes the loop (within its budget, see C6 for the timeout) run another
iteration. -/
theorem c7_order_terminal_statuses (info : Nat → Option OrderInfo) (oid : String)
    (p : Nat) (hp : 0 < p) (tm n : Nat) (i : OrderInfo) (hi : info n = some i) :
    ((i.status = "Failed" ∨ i.status = "Canceled") →
      wait_for_order_completion_go info oid p hp tm n = (.orderFailed oid i.status, n)) ∧
    ((i.status = "Completed" ∨ i.status = "Reports failed") →
      wait_for_order_completion_go info oid p hp tm n = (.completed i.result_types, n)) ∧
    (i.status ∉ ["Completed", "Reports failed", "Failed", "Canceled"] →
      n * p ≤ tm * 60 →
      wait_for_order_completion_go info oid p hp tm n =
        wait_for_order_completion_go info oid p hp tm (n + 1)) := by
  refine ⟨?_, ?_, ?_⟩
  · intro h
    rcases h with h | h <;> (rw [wait_for_order_completion_go]; simp [hi, h])
  · intro h
    rcases h with h | h <;> (rw [wait_for_order_completion_go]; simp [hi, h])
  · intro h ht
    simp only [List.mem_cons, List.not_mem_nil, or_false, not_or] at h
    rw [wait_for_order_completion_go]
    simp [hi, h.1, h.2.1, h.2.2.1, h.2.2.2, Nat.not_lt.mpr ht]

/-- Witness for C7: a `Failed` status observed after the timeout budget
is already exhausted (iteration 1 at interval 60 with a 0-minute
budget) still raises the order-failed error, not the timeout. -/
theorem c7_witness :
    wait_for_order_completion_go (fun k => if k = 0 then some ⟨"Running", []⟩
      else some ⟨"Failed", [.str "RAW_VCF"]⟩) "ord-1" 60 (by decide) 0 1
      = (.orderFailed "ord-1" "Failed", 1) :=
  (c7_order_terminal_statuses (fun k => if k = 0 then some ⟨"Running", []⟩
      else some ⟨"Failed", [.str "RAW_VCF"]⟩) "ord-1" 60 (by decide) 0 1
      ⟨"Failed", [.str "RAW_VCF"]⟩ rfl).1 (Or.inl rfl)

/-! ## Claim C10 -/

/-- C10: at any iteration of the file-validation wait or of the
order-completion wait, an empty query result (`None` from
`check_file_status` / `check_order_status`) raises the not-found
`RuntimeError` on that very iteration — it is never treated as a
pending state — and `process_order` turns either error into an abort of
the run. -/
theorem c10_not_found_aborts (status : Nat → Option FileStatus)
    (info : Nat → Option OrderInfo) (fid oid : String) (p : Nat) (hp : 0 < p)
    (tm n : Nat) (env : WorkflowEnv) :
    (status n = none →
      wait_for_file_validation_go status fid p hp tm n = (.notFound fid, n)) ∧
    (info n = none →
      wait_for_order_completion_go info oid p hp tm n = (.notFound oid, n)) ∧
    (∀ f, (wait_for_file_validation env.fileStatus fid p hp 300).1 = .notFound f →
      (process_order env fid p hp).1 = .error (.validationErr (.notFound f))) ∧
    (∀ oid', (wait_for_file_validation env.fileStatus fid p hp 300).1 = .validated →
      env.submitOrder = .ok oid' →
      (wait_for_order_completion env.orderInfo oid' p hp 300).1 = .notFound oid' →
      (process_order env fid p hp).1 = .error (.orderErr (.notFound oid'))) := by
  refine ⟨?_, ?_, ?_, ?_⟩
  · intro h; rw [wait_for_file_validation_go]; simp [h]
  · intro h; rw [wait_for_order_completion_go]; simp [h]
  · intro f h
    simp only [process_order]
    rw [h]
  · intro oid' h1 h2 h3
    simp only [process_order]
    rw [h1, h2]
    simp [h3]

/-- Witness for C10: with the very first status query empty, both waits
raise not-found at iteration 0 and the run aborts. -/
theorem c10_witness :
    wait_for_file_validation_go (fun _ => none) "fid-1" 60 (by decide) 300 0
      = (.notFound "fid-1", 0) ∧
    wait_for_order_completion_go (fun _ => none) "ord-1" 60 (by decide) 300 0
      = (.notFound "ord-1", 0) ∧
    (process_order ⟨fun _ => none, .ok "ord-1", fun _ => none, fun _ => .ok ()⟩
      "fid-1" 60 (by decide)).1 = .error (.validationErr (.notFound "fid-1")) := by
  have h := c10_not_found_aborts (fun _ => none) (fun _ => none) "fid-1" "ord-1" 60
    (by decide) 300 0 ⟨fun _ => none, .ok "ord-1", fun _ => none, fun _ => .ok ()⟩
  refine ⟨h.1 rfl, h.2.1 rfl, h.2.2.1 "fid-1" ?_⟩
  have h0 := c10_not_found_aborts (fun _ => none) (fun _ => none) "fid-1" "ord-1" 60
    (by decide) 300 0 ⟨fun _ => none, .ok "ord-1", fun _ => none, fun _ => .ok ()⟩
  exact congrArg Prod.fst (h0.1 rfl)

/-! ## Claim C8 -/

/-- Spec-side normalization of one `result_types` entry, written from
the claim's words for the refinement comparison: a dict entry having a
"type" key maps to that key's value, a string entry stays itself,
every other entry is dropped. -/
def normalizeEntrySpec : RTItem → Option String
  | .dict fields => fields.lookup "type"
  | .str s => some s
  | .otherVal _ => none

/-- The download outcomes the `except requests.HTTPError` clause of
`process_order` catches: success, or an HTTP error status. -/
def downloadCaught : Except PyErr Unit → Bool
  | .ok () => true
  | .error (.reqError (.httpError _)) => true
  | .error _ => false

theorem downloadLoop_all_caught (download : String → Except PyErr Unit) (l : List String)
    (h : ∀ rt ∈ l, downloadCaught (download rt) = true) :
    downloadLoop download l = (.ok (), l.map fun rt => (rt, download rt)) := by
  induction l with
  | nil => simp [downloadLoop]
  | cons rt rest ih =>
    have hrt := h rt (List.mem_cons_self rt rest)
    have ihr := ih (fun x hx => h x (List.mem_cons_of_mem rt hx))
    cases hd : download rt with
    | ok u => cases u; simp [downloadLoop, hd, ihr]
    | error e =>
      cases e with
      | reqError re =>
        cases re with
        | httpError s => simp [downloadLoop, hd, ihr]
        | connError => rw [hd] at hrt; simp [downloadCaught] at hrt
      | runtimeError m => rw [hd] at hrt; simp [downloadCaught] at hrt

/-- C8: the normalization loop of `process_order` maps each dict entry
with a "type" key to that key's value, keeps string entries, and drops
everything else, preserving the order of kept entries (it equals
`filterMap` of the spec-side per-entry normalizer); and once an order
completes with `result_types = raw`, the downloads attempted are
exactly the normalized strings, in order (provided no download fails
with an uncaught non-HTTP exception, see C9). -/
theorem c8_normalization (l : List RTItem) (env : WorkflowEnv)
    (fid oid : String) (p : Nat) (hp : 0 < p) (raw : List RTItem)
    (h1 : (wait_for_file_validation env.fileStatus fid p hp 300).1 = .validated)
    (h2 : env.submitOrder = .ok oid)
    (h3 : (wait_for_order_completion env.orderInfo oid p hp 300).1 = .completed raw)
    (h4 : ∀ rt ∈ parseResultTypes raw, downloadCaught (env.download rt) = true) :
    parseResultTypes l = l.filterMap normalizeEntrySpec ∧
    (process_order env fid p hp).2.map Prod.fst = parseResultTypes raw := by
  constructor
  · induction l with
    | nil => simp [parseResultTypes]
    | cons item rest ih =>
      cases item with
      | dict fields =>
        cases hf : fields.lookup "type" with
        | none => simp [parseResultTypes, normalizeEntrySpec, hf, ih]
        | some v => simp [parseResultTypes, normalizeEntrySpec, hf, ih]
      | str s => simp [parseResultTypes, normalizeEntrySpec, ih]
      | otherVal t => simp [parseResultTypes, normalizeEntrySpec, ih]
  · simp only [process_order]
    rw [h1, h2]
    simp only []
    rw [h3]
    simp [downloadLoop_all_caught env.download _ h4, List.map_map]
    have hid : (Prod.fst ∘ fun rt => (rt, env.download rt)) = fun rt : String => rt := rfl
    rw [hid]
    exact List.map_id' _

/-- Witness for C8: a labelled object, a plain string and a junk entry
normalize to the two type names, both of which get download attempts. -/
theorem c8_witness :
    parseResultTypes [.dict [("type", "SUMMARY_CHROMS"), ("label", "x")],
        .str "RAW_VCF", .otherVal "junk"]
      = List.filterMap normalizeEntrySpec [.dict [("type", "SUMMARY_CHROMS"), ("label", "x")],
        .str "RAW_VCF", .otherVal "junk"] ∧
    (process_order
      ⟨fun _ => some ⟨true, true, 3⟩, .ok "ord-8",
       fun _ => some ⟨"Completed", [.dict [("type", "SUMMARY_CHROMS"), ("label", "x")],
         .str "RAW_VCF", .otherVal "junk"]⟩,
       fun _ => .ok ()⟩ "fid-8" 60 (by decide)).2.map Prod.fst
      = parseResultTypes [.dict [("type", "SUMMARY_CHROMS"), ("label", "x")],
        .str "RAW_VCF", .otherVal "junk"] :=
  c8_normalization
    [.dict [("type", "SUMMARY_CHROMS"), ("label", "x")], .str "RAW_VCF", .otherVal "junk"]
    ⟨fun _ => some ⟨true, true, 3⟩, .ok "ord-8",
     fun _ => some ⟨"Completed", [.dict [("type", "SUMMARY_CHROMS"), ("label", "x")],
       .str "RAW_VCF", .otherVal "junk"]⟩,
     fun _ => .ok ()⟩ "fid-8" "ord-8" 60 (by decide) _
    (by rw [wait_for_file_validation, wait_for_file_validation_go]; simp [fileValidated])
    rfl
    (by rw [wait_for_order_completion, wait_for_order_completion_go]; simp)
    (by intro rt _; rfl)

/-! ## Claim C9 -/

/-- C9 (amended): an HTTP error response (`requests.HTTPError`) while
downloading one result type is logged and skipped without aborting the
run, and the downloads of all remaining result types are still
attempted; every other modelled error of the workflow — a validation
wait failure, a submission failure, an order wait failure, and also a
non-HTTP download exception such as a connection error — aborts the
run. -/
theorem c9_download_http_failures_skipped (env : WorkflowEnv) (fid oid : String)
    (p : Nat) (hp : 0 < p) (raw : List RTItem) :
    ((wait_for_file_validation env.fileStatus fid p hp 300).1 = .validated →
      env.submitOrder = .ok oid →
      (wait_for_order_completion env.orderInfo oid p hp 300).1 = .completed raw →
      (∀ rt ∈ parseResultTypes raw, downloadCaught (env.download rt) = true) →
      process_order env fid p hp =
        (.ok (), (parseResultTypes raw).map fun rt => (rt, env.download rt))) ∧
    (∀ r, (wait_for_file_validation env.fileStatus fid p hp 300).1 = .notFound r →
      (process_order env fid p hp).1 = .error (.validationErr (.notFound r))) ∧
    (∀ m, (wait_for_file_validation env.fileStatus fid p hp 300).1 = .timedOut m →
      (process_order env fid p hp).1 = .error (.validationErr (.timedOut m))) ∧
    (∀ e, (wait_for_file_validation env.fileStatus fid p hp 300).1 = .validated →
      env.submitOrder = .error e →
      (process_order env fid p hp).1 = .error (.submitErr e)) ∧
    (∀ o s, (wait_for_file_validation env.fileStatus fid p hp 300).1 = .validated →
      env.submitOrder = .ok oid →
      (wait_for_order_completion env.orderInfo oid p hp 300).1 = .orderFailed o s →
      (process_order env fid p hp).1 = .error (.orderErr (.orderFailed o s))) ∧
    (∀ o m, (wait_for_file_validation env.fileStatus fid p hp 300).1 = .validated →
      env.submitOrder = .ok oid →
      (wait_for_order_completion env.orderInfo oid p hp 300).1 = .timedOut o m →
      (process_order env fid p hp).1 = .error (.orderErr (.timedOut o m))) := by
  refine ⟨?_, ?_, ?_, ?_, ?_, ?_⟩
  · intro h1 h2 h3 h4
    simp only [process_order]
    rw [h1, h2]
    simp only []
    rw [h3]
    simp [downloadLoop_all_caught env.download _ h4]
  · intro r h; simp only [process_order]; rw [h]
  · intro m h; simp only [process_order]; rw [h]
  · intro e h1 h2; simp only [process_order]; rw [h1]; simp [h2]
  · intro o s h1 h2 h3; simp only [process_order]; rw [h1, h2]; simp [h3]
  · intro o m h1 h2 h3; simp only [process_order]; rw [h1, h2]; simp [h3]

/-- Witness for C9: the first result type's download fails with an HTTP
404, yet the run finishes and the second type is still attempted. -/
theorem c9_witness :
    process_order
      ⟨fun _ => some ⟨true, true, 3⟩, .ok "ord-9",
       fun _ => some ⟨"Completed", [.str "A", .str "B"]⟩,
       fun rt => if rt = "A" then .error (.reqError (.httpError 404)) else .ok ()⟩
      "fid-9" 60 (by decide)
      = (.ok (), [("A", .error (.reqError (.httpError 404))), ("B", .ok ())]) := by
  have h := (c9_download_http_failures_skipped
    ⟨fun _ => some ⟨true, true, 3⟩, .ok "ord-9",
     fun _ => some ⟨"Completed", [.str "A", .str "B"]⟩,
     fun rt => if rt = "A" then .error (.reqError (.httpError 404)) else .ok ()⟩
    "fid-9" "ord-9" 60 (by decide) [.str "A", .str "B"]).1
    (by rw [wait_for_file_validation, wait_for_file_validation_go]; simp [fileValidated])
    rfl
    (by rw [wait_for_order_completion, wait_for_order_completion_go]; simp)
    (by intro rt hrt
        simp [parseResultTypes] at hrt
        rcases hrt with rfl | rfl <;> rfl)
  simpa [parseResultTypes] using h

/-- Counterexample to C9 as stated: a download failure that is not a
`requests.HTTPError` — here a connection error, a
`requests.exceptions.RequestException` the `except requests.HTTPError`
clause does not catch — aborts the run instead of being skipped, and
the remaining result type "B" is never attempted.  The claim's "a
failure while downloading that result type is logged and skipped
without aborting the run, and the downloads of all remaining result
types are still attempted" is therefore false on this input. -/
theorem c9_counterexample :
    process_order
      ⟨fun _ => some ⟨true, true, 3⟩, .ok "ord-9c",
       fun _ => some ⟨"Completed", [.str "A", .str "B"]⟩,
       fun rt => if rt = "A" then .error (.reqError .connError) else .ok ()⟩
      "fid-9c" 60 (by decide)
      = (.error (.downloadCrash (.reqError .connError)),
         [("A", .error (.reqError .connError))]) := by
  rw [process_order]
  rw [wait_for_file_validation, wait_for_file_validation_go]
  simp only [fileValidated]
  rw [wait_for_order_completion, wait_for_order_completion_go]
  simp [parseResultTypes, downloadLoop]

/-! ## Helper lemmas about the reflection poll loop -/

theorem wfta_go_found (find : Nat → Option String) (t p : Nat) (hp : 0 < p) :
    ∀ d m, pyTruthy (find (m + d)) = true → (m + d) * p < t →
      (∀ k, m ≤ k → k < m + d → pyTruthy (find k) = false) →
      wait_for_file_to_appear_go find t p hp m = (find (m + d), m + d + 1) := by
  intro d
  induction d with
  | zero =>
    intro m hN hNt _
    rw [wait_for_file_to_appear_go]
    simp only [Nat.add_zero] at hN hNt ⊢
    rw [dif_pos hNt, if_pos hN]
  | succ d ih =>
    intro m hN hNt hb
    rw [wait_for_file_to_appear_go]
    have hm : m * p < t := lt_of_le_of_lt (Nat.mul_le_mul_right p (by omega)) hNt
    rw [dif_pos hm, if_neg (by simp [hb m le_rfl (by omega)])]
    have h1 : m + 1 + d = m + (d + 1) := by omega
    have h2 := ih (m + 1) (by rw [h1]; exact hN) (by rw [h1]; exact hNt)
      (fun k hk hk2 => hb k (by omega) (by omega))
    rw [h2, h1]

theorem wfta_go_none (find : Nat → Option String) (t p : Nat) (hp : 0 < p) (n : Nat)
    (h : ∀ k, n ≤ k → k * p < t → pyTruthy (find k) = false) :
    ∃ m, wait_for_file_to_appear_go find t p hp n = (none, m) ∧ ¬ m * p < t ∧ n ≤ m ∧
      ∀ k, n ≤ k → k < m → k * p < t := by
  induction n using wait_for_file_to_appear_go.induct find t p hp with
  | case1 n hlt hfind =>
    exact absurd (h n le_rfl hlt) (by simp [hfind])
  | case2 n hlt hfind ih =>
    obtain ⟨m, hm, hmt, hle, hall⟩ := ih (fun k hk => h k (by omega))
    refine ⟨m, ?_, hmt, by omega, ?_⟩
    · rw [wait_for_file_to_appear_go, dif_pos hlt, if_neg (by simp [hfind])]
      exact hm
    · intro k hk hkm
      rcases Nat.eq_or_lt_of_le hk with rfl | h2
      · exact hlt
      · exact hall k (by omega) hkm
  | case3 n hlt =>
    exact ⟨n, by rw [wait_for_file_to_appear_go, dif_neg hlt], hlt, le_rfl, by omega⟩

theorem wfta_go_count_mono (find : Nat → Option String) (t p : Nat) (hp : 0 < p)
    (n : Nat) : n ≤ (wait_for_file_to_appear_go find t p hp n).2 := by
  induction n using wait_for_file_to_appear_go.induct find t p hp with
  | case1 n hlt hfind =>
    rw [wait_for_file_to_appear_go, dif_pos hlt, if_pos hfind]
    omega
  | case2 n hlt hfind ih =>
    rw [wait_for_file_to_appear_go, dif_pos hlt, if_neg (by simp [hfind])]
    omega
  | case3 n hlt =>
    rw [wait_for_file_to_appear_go, dif_neg hlt]

theorem wfta_count_pos (find : Nat → Option String) :
    0 < (wait_for_file_to_appear find SFTP_REFLECTION_TIMEOUT_SEC
      SFTP_REFLECTION_POLL_SEC (by decide)).2 := by
  rw [wait_for_file_to_appear, wait_for_file_to_appear_go,
    dif_pos (by decide : 0 * SFTP_REFLECTION_POLL_SEC < SFTP_REFLECTION_TIMEOUT_SEC)]
  by_cases hf : pyTruthy (find 0) = true
  · rw [if_pos hf]
    simp
  · rw [if_neg hf]
    exact wfta_go_count_mono find SFTP_REFLECTION_TIMEOUT_SEC SFTP_REFLECTION_POLL_SEC
      (by decide) 1

/-- With the scripted window (300s, 30s), queries run at elapsed times
0, 30, ..., 270; if all ten come back falsy the wait returns `None`
after exactly 10 queries. -/
theorem wfta_timeout_window (find : Nat → Option String)
    (h : ∀ k, k * SFTP_REFLECTION_POLL_SEC < SFTP_REFLECTION_TIMEOUT_SEC →
      pyTruthy (find k) = false) :
    wait_for_file_to_appear find SFTP_REFLECTION_TIMEOUT_SEC SFTP_REFLECTION_POLL_SEC
      (by decide) = (none, 10) := by
  obtain ⟨m, hm, hmt, -, hrange⟩ := wfta_go_none find SFTP_REFLECTION_TIMEOUT_SEC
    SFTP_REFLECTION_POLL_SEC (by decide) 0 (fun k _ hk => h k hk)
  have hub : m ≤ 10 := by
    by_contra hgt
    push_neg at hgt
    have h10 := hrange 10 (by omega) (by omega)
    simp [SFTP_REFLECTION_POLL_SEC, SFTP_REFLECTION_TIMEOUT_SEC] at h10
  have hlb : 10 ≤ m := by
    simp only [SFTP_REFLECTION_POLL_SEC, SFTP_REFLECTION_TIMEOUT_SEC] at hmt
    omega
  have hm10 : m = 10 := by omega
  rw [wait_for_file_to_appear, hm, hm10]

/-- If the `N`-th query is the first truthy one and falls inside the
window, the wait returns its id after `N + 1` queries. -/
theorem wfta_found_first (find : Nat → Option String) (N : Nat)
    (h1 : pyTruthy (find N) = true)
    (h2 : N * SFTP_REFLECTION_POLL_SEC < SFTP_REFLECTION_TIMEOUT_SEC)
    (h3 : ∀ k, k < N → pyTruthy (find k) = false) :
    wait_for_file_to_appear find SFTP_REFLECTION_TIMEOUT_SEC SFTP_REFLECTION_POLL_SEC
      (by decide) = (find N, N + 1) := by
  rw [wait_for_file_to_appear]
  have := wfta_go_found find SFTP_REFLECTION_TIMEOUT_SEC SFTP_REFLECTION_POLL_SEC
    (by decide) N 0 (by simpa using h1) (by simpa using h2)
    (fun k _ hk => h3 k (by omega))
  simpa using this

/-- Helper: under no-reuse and a size above the HTTP threshold with a
successful SFTP transfer, `find_or_upload_file` reduces to the outcome
of the reflection wait. -/
theorem find_or_upload_sftp_path (env : UpEnv) (lf : LocalFile) (ce : Bool) (cfg : SftpCfg)
    (hnr : ce = false ∨
      pyTruthy (find_newest_file_id_by_name (env.filesAtStart lf.base)) = false)
    (hsize : ¬ lf.sizeBytes ≤ MAX_HTTP_SIZE_MB * 1024 * 1024)
    (hsftp : env.sftpResult = .ok ()) :
    find_or_upload_file env lf ce cfg =
      (if pyTruthy (reflectWait env lf.base).1
       then (.ok ((reflectWait env lf.base).1.getD ""),
         (if ce then [UpAction.queryByName lf.base] else []) ++
           [.sftpPut cfg.host cfg.user cfg.folder lf.base] ++
           (List.range (reflectWait env lf.base).2).map
             (fun i => UpAction.reflectQuery lf.base i))
       else (.error (.reflectionTimeout lf.base SFTP_REFLECTION_TIMEOUT_SEC),
         (if ce then [UpAction.queryByName lf.base] else []) ++
           [.sftpPut cfg.host cfg.user cfg.folder lf.base] ++
           (List.range (reflectWait env lf.base).2).map
             (fun i => UpAction.reflectQuery lf.base i))) := by
  rcases hnr with rfl | h
  · simp [find_or_upload_file, hsize, hsftp, pyTruthy_none]
  · by_cases hce : ce <;>
      simp [find_or_upload_file, hce, h, hsize, hsftp, pyTruthy_none]

/-! ## Claim C3 -/

/-- C3: for a file not reused from the server (the flag is off, or the
server query matched nothing), `find_or_upload_file` with a size at
most 50 MB (`size / (1024*1024) <= 50`) does one direct HTTP upload,
returns the server-assigned id and performs no reflection query; with a
size strictly above 50 MB it does one SFTP put of the file's basename
into the configured remote folder and then runs the reflection poll
(at least one reflection query), the result being the poll's outcome. -/
theorem c3_transport_by_size (env : UpEnv) (lf : LocalFile) (ce : Bool) (cfg : SftpCfg)
    (hnr : ce = false ∨
      pyTruthy (find_newest_file_id_by_name (env.filesAtStart lf.base)) = false) :
    (∀ fid, lf.sizeBytes ≤ MAX_HTTP_SIZE_MB * 1024 * 1024 → env.httpUpload = .ok fid →
      find_or_upload_file env lf ce cfg =
        (.ok fid,
         (if ce then [UpAction.queryByName lf.base] else []) ++ [.httpUp lf.path])) ∧
    (MAX_HTTP_SIZE_MB * 1024 * 1024 < lf.sizeBytes → env.sftpResult = .ok () →
      0 < (reflectWait env lf.base).2 ∧
      find_or_upload_file env lf ce cfg =
        (if pyTruthy (reflectWait env lf.base).1
         then (.ok ((reflectWait env lf.base).1.getD ""),
           (if ce then [UpAction.queryByName lf.base] else []) ++
             [.sftpPut cfg.host cfg.user cfg.folder lf.base] ++
             (List.range (reflectWait env lf.base).2).map
               (fun i => UpAction.reflectQuery lf.base i))
         else (.error (.reflectionTimeout lf.base SFTP_REFLECTION_TIMEOUT_SEC),
           (if ce then [UpAction.queryByName lf.base] else []) ++
             [.sftpPut cfg.host cfg.user cfg.folder lf.base] ++
             (List.range (reflectWait env lf.base).2).map
               (fun i => UpAction.reflectQuery lf.base i)))) := by
  constructor
  · intro fid hsize hup
    rcases hnr with rfl | h
    · simp [find_or_upload_file, hsize, hup, pyTruthy_none]
    · by_cases hce : ce <;>
        simp [find_or_upload_file, hce, h, hsize, hup, pyTruthy_none]
  · intro hsize hsftp
    refine ⟨wfta_count_pos (reflectFind env lf.base), ?_⟩
    exact find_or_upload_sftp_path env lf ce cfg hnr (by omega) hsftp

/-- Witness for C3: a 10 MB file goes over HTTP with no reflection
query; an 80 MB file goes over SFTP into the configured folder followed
by a reflection poll that finds the file on its first query. -/
theorem c3_witness :
    find_or_upload_file ⟨fun _ => [], .ok "http-id", .ok (), fun _ _ => []⟩
      ⟨"/tmp/small.vcf", "small.vcf", 10 * 1024 * 1024⟩ false ⟨"h", "u", "fold", "", ""⟩
      = (.ok "http-id", [.httpUp "/tmp/small.vcf"]) ∧
    find_or_upload_file
      ⟨fun _ => [], .ok "http-id", .ok (), fun _ _ => [FileRec.mk "sftp-id" 7]⟩
      ⟨"/tmp/big.vcf", "big.vcf", 80 * 1024 * 1024⟩ false ⟨"h", "u", "fold", "", ""⟩
      = (.ok "sftp-id",
         [.sftpPut "h" "u" "fold" "big.vcf", .reflectQuery "big.vcf" 0]) := by
  constructor
  · exact (c3_transport_by_size ⟨fun _ => [], .ok "http-id", .ok (), fun _ _ => []⟩
      ⟨"/tmp/small.vcf", "small.vcf", 10 * 1024 * 1024⟩ false ⟨"h", "u", "fold", "", ""⟩
      (Or.inl rfl)).1 "http-id" (by norm_num [MAX_HTTP_SIZE_MB]) rfl
  · have hf0 : reflectFind ⟨fun _ => [], .ok "http-id", .ok (),
        fun _ _ => [FileRec.mk "sftp-id" 7]⟩ "big.vcf" 0 = some "sftp-id" := by decide
    have hw : reflectWait ⟨fun _ => [], .ok "http-id", .ok (), fun _ _ => [FileRec.mk "sftp-id" 7]⟩
        "big.vcf" = (some "sftp-id", 1) := by
      rw [reflectWait]
      have h0 := wfta_found_first (reflectFind ⟨fun _ => [], .ok "http-id", .ok (),
        fun _ _ => [FileRec.mk "sftp-id" 7]⟩ "big.vcf") 0
        (by rw [hf0]; decide) (by decide) (fun k hk => absurd hk (Nat.not_lt_zero k))
      rw [hf0] at h0
      exact h0
    have h2 := (c3_transport_by_size
      ⟨fun _ => [], .ok "http-id", .ok (), fun _ _ => [FileRec.mk "sftp-id" 7]⟩
      ⟨"/tmp/big.vcf", "big.vcf", 80 * 1024 * 1024⟩ false ⟨"h", "u", "fold", "", ""⟩
      (Or.inl rfl)).2 (by norm_num [MAX_HTTP_SIZE_MB]) rfl
    rw [h2.2, hw]
    have hie : ("sftp-id".isEmpty) = false := by decide
    simp [pyTruthy, hie, List.range_succ]

/-! ## Claim C5 -/

/-- C5: after an SFTP upload the reflection wait queries for the file
by base name once per `SFTP_REFLECTION_POLL_SEC = 30` seconds while
elapsed time stays under `SFTP_REFLECTION_TIMEOUT_SEC = 300` (ten
queries at 0s, 30s, ..., 270s).  If every query inside the window comes
back empty, the wait yields `None` and `find_or_upload_file` raises the
upload-reflection-timeout `RuntimeError`; if the `N`-th query is the
first to return an id, the wait returns exactly that id and the run
proceeds with it. -/
theorem c5_reflection_wait (env : UpEnv) (lf : LocalFile) (ce : Bool) (cfg : SftpCfg)
    (find : Nat → Option String) (N : Nat) :
    ((∀ k, k * SFTP_REFLECTION_POLL_SEC < SFTP_REFLECTION_TIMEOUT_SEC →
        pyTruthy (find k) = false) →
      wait_for_file_to_appear find SFTP_REFLECTION_TIMEOUT_SEC SFTP_REFLECTION_POLL_SEC
        (by decide) = (none, 10)) ∧
    (pyTruthy (find N) = true →
      N * SFTP_REFLECTION_POLL_SEC < SFTP_REFLECTION_TIMEOUT_SEC →
      (∀ k, k < N → pyTruthy (find k) = false) →
      wait_for_file_to_appear find SFTP_REFLECTION_TIMEOUT_SEC SFTP_REFLECTION_POLL_SEC
        (by decide) = (find N, N + 1)) ∧
    ((ce = false ∨
        pyTruthy (find_newest_file_id_by_name (env.filesAtStart lf.base)) = false) →
      MAX_HTTP_SIZE_MB * 1024 * 1024 < lf.sizeBytes → env.sftpResult = .ok () →
      (∀ k, k * SFTP_REFLECTION_POLL_SEC < SFTP_REFLECTION_TIMEOUT_SEC →
        pyTruthy (reflectFind env lf.base k) = false) →
      (find_or_upload_file env lf ce cfg).1 =
        .error (.reflectionTimeout lf.base SFTP_REFLECTION_TIMEOUT_SEC)) ∧
    ((ce = false ∨
        pyTruthy (find_newest_file_id_by_name (env.filesAtStart lf.base)) = false) →
      MAX_HTTP_SIZE_MB * 1024 * 1024 < lf.sizeBytes → env.sftpResult = .ok () →
      pyTruthy (reflectFind env lf.base N) = true →
      N * SFTP_REFLECTION_POLL_SEC < SFTP_REFLECTION_TIMEOUT_SEC →
      (∀ k, k < N → pyTruthy (reflectFind env lf.base k) = false) →
      (find_or_upload_file env lf ce cfg).1 =
        .ok ((reflectFind env lf.base N).getD "")) := by
  refine ⟨wfta_timeout_window find, wfta_found_first find N, ?_, ?_⟩
  · intro hnr hsize hsftp hnone
    have hw : reflectWait env lf.base = (none, 10) := by
      rw [reflectWait]
      exact wfta_timeout_window (reflectFind env lf.base) hnone
    rw [find_or_upload_sftp_path env lf ce cfg hnr (by omega) hsftp, hw]
    simp [pyTruthy_none]
  · intro hnr hsize hsftp hN hNt hbefore
    have hw : reflectWait env lf.base = (reflectFind env lf.base N, N + 1) := by
      rw [reflectWait]
      exact wfta_found_first (reflectFind env lf.base) N hN hNt hbefore
    rw [find_or_upload_sftp_path env lf ce cfg hnr (by omega) hsftp, hw]
    simp [hN]

/-- Witness for C5: with the server reflecting nothing, the wait makes
its ten queries and the run fails with the reflection timeout; with the
file visible from the third query on, the wait returns its id. -/
theorem c5_witness :
    (find_or_upload_file ⟨fun _ => [], .ok "x", .ok (), fun _ _ => []⟩
      ⟨"/tmp/big.vcf", "big.vcf", 80 * 1024 * 1024⟩ false ⟨"h", "u", "fold", "", ""⟩).1
      = .error (.reflectionTimeout "big.vcf" SFTP_REFLECTION_TIMEOUT_SEC) ∧
    wait_for_file_to_appear
      (fun n => if n < 2 then none else some "late-id")
      SFTP_REFLECTION_TIMEOUT_SEC SFTP_REFLECTION_POLL_SEC (by decide)
      = (some "late-id", 3) := by
  constructor
  · exact (c5_reflection_wait ⟨fun _ => [], .ok "x", .ok (), fun _ _ => []⟩
      ⟨"/tmp/big.vcf", "big.vcf", 80 * 1024 * 1024⟩ false ⟨"h", "u", "fold", "", ""⟩
      (fun _ => none) 0).2.2.1 (Or.inl rfl) (by norm_num [MAX_HTTP_SIZE_MB]) rfl
      (fun k _ => by simp [reflectFind, find_newest_file_id_by_name, pyTruthy_none])
  · have h := (c5_reflection_wait ⟨fun _ => [], .ok "x", .ok (), fun _ _ => []⟩
      ⟨"/tmp/big.vcf", "big.vcf", 80 * 1024 * 1024⟩ false ⟨"h", "u", "fold", "", ""⟩
      (fun n => if n < 2 then none else some "late-id") 2).2.1
      (by decide) (by decide) (fun k hk => by interval_cases k <;> decide)
    simpa using h

/-! ## Helper lemmas about the two status-wait loops -/

theorem wfv_go_step_none (status : Nat → Option FileStatus) (fid : String) (p : Nat)
    (hp : 0 < p) (tm n : Nat) (hs : status n = none) :
    wait_for_file_validation_go status fid p hp tm n = (.notFound fid, n) := by
  rw [wait_for_file_validation_go, hs]

theorem wfv_go_step_some (status : Nat → Option FileStatus) (fid : String) (p : Nat)
    (hp : 0 < p) (tm n : Nat) (s : FileStatus) (hs : status n = some s) :
    wait_for_file_validation_go status fid p hp tm n =
      if fileValidated s = true then (.validated, n)
      else if tm * 60 < n * p then (.timedOut tm, n)
      else wait_for_file_validation_go status fid p hp tm (n + 1) := by
  rw [wait_for_file_validation_go, hs]

theorem woc_go_step_some (info : Nat → Option OrderInfo) (oid : String) (p : Nat)
    (hp : 0 < p) (tm n : Nat) (i : OrderInfo) (hs : info n = some i) :
    wait_for_order_completion_go info oid p hp tm n =
      if i.status = "Completed" ∨ i.status = "Reports failed"
      then (.completed i.result_types, n)
      else if i.status = "Failed" ∨ i.status = "Canceled"
      then (.orderFailed oid i.status, n)
      else if tm * 60 < n * p then (.timedOut oid tm, n)
      else wait_for_order_completion_go info oid p hp tm (n + 1) := by
  rw [wait_for_order_completion_go, hs]

theorem wfv_go_ready (status : Nat → Option FileStatus) (fid : String) (p : Nat)
    (hp : 0 < p) (tm : Nat) :
    ∀ d m, (∀ k, m ≤ k → k < m + d → ∃ s, status k = some s ∧ fileValidated s = false ∧
        k * p ≤ tm * 60) →
      (∃ s, status (m + d) = some s ∧ fileValidated s = true) →
      wait_for_file_validation_go status fid p hp tm m = (.validated, m + d) := by
  intro d
  induction d with
  | zero =>
    intro m _ hN
    obtain ⟨s, hs, hr⟩ := hN
    simp only [Nat.add_zero] at hs ⊢
    rw [wfv_go_step_some status fid p hp tm m s hs, if_pos hr]
  | succ d ih =>
    intro m hb hN
    obtain ⟨s, hs, hnr, hbud⟩ := hb m le_rfl (by omega)
    rw [wfv_go_step_some status fid p hp tm m s hs, if_neg (by simp [hnr]),
      if_neg (by omega)]
    have h1 : m + 1 + d = m + (d + 1) := by omega
    have h2 := ih (m + 1) (fun k hk hk2 => hb k (by omega) (by omega)) (by rw [h1]; exact hN)
    rw [h2, h1]

theorem wfv_go_timeout (status : Nat → Option FileStatus) (fid : String) (p : Nat)
    (hp : 0 < p) (tm : Nat)
    (h : ∀ k, ∃ s, status k = some s ∧ fileValidated s = false) :
    ∀ n, ∃ m, wait_for_file_validation_go status fid p hp tm n = (.timedOut tm, m) ∧
      tm * 60 < m * p ∧ n ≤ m := by
  have main : ∀ fuel n, tm * 60 + 1 - n * p ≤ fuel →
      ∃ m, wait_for_file_validation_go status fid p hp tm n = (.timedOut tm, m) ∧
        tm * 60 < m * p ∧ n ≤ m := by
    intro fuel
    induction fuel with
    | zero =>
      intro n hf
      have hn : tm * 60 < n * p := by omega
      obtain ⟨s, hs, hnr⟩ := h n
      exact ⟨n, by rw [wfv_go_step_some status fid p hp tm n s hs, if_neg (by simp [hnr]),
        if_pos hn], hn, le_rfl⟩
    | succ fuel ih =>
      intro n hf
      obtain ⟨s, hs, hnr⟩ := h n
      by_cases hn : tm * 60 < n * p
      · exact ⟨n, by rw [wfv_go_step_some status fid p hp tm n s hs, if_neg (by simp [hnr]),
          if_pos hn], hn, le_rfl⟩
      · have hmul : (n + 1) * p = n * p + p := by ring
        obtain ⟨m, hm, hmt, hle⟩ := ih (n + 1) (by omega)
        refine ⟨m, ?_, hmt, by omega⟩
        rw [wfv_go_step_some status fid p hp tm n s hs, if_neg (by simp [hnr]), if_neg hn]
        exact hm
  intro n
  exact main (tm * 60 + 1) n (by omega)

theorem woc_go_ready (info : Nat → Option OrderInfo) (oid : String) (p : Nat)
    (hp : 0 < p) (tm : Nat) :
    ∀ d m, (∀ k, m ≤ k → k < m + d → ∃ i, info k = some i ∧
        ¬(i.status = "Completed" ∨ i.status = "Reports failed") ∧
        ¬(i.status = "Failed" ∨ i.status = "Canceled") ∧ k * p ≤ tm * 60) →
      ∀ i, info (m + d) = some i → (i.status = "Completed" ∨ i.status = "Reports failed") →
      wait_for_order_completion_go info oid p hp tm m = (.completed i.result_types, m + d) := by
  intro d
  induction d with
  | zero =>
    intro m _ i hi hr
    simp only [Nat.add_zero] at hi ⊢
    rw [woc_go_step_some info oid p hp tm m i hi, if_pos hr]
  | succ d ih =>
    intro m hb i hi hr
    obtain ⟨j, hj, hns, hnf, hbud⟩ := hb m le_rfl (by omega)
    rw [woc_go_step_some info oid p hp tm m j hj, if_neg hns, if_neg hnf,
      if_neg (by omega)]
    have h1 : m + 1 + d = m + (d + 1) := by omega
    have h2 := ih (m + 1) (fun k hk hk2 => hb k (by omega) (by omega)) i
      (by rw [h1]; exact hi) hr
    rw [h2, h1]

theorem woc_go_timeout (info : Nat → Option OrderInfo) (oid : String) (p : Nat)
    (hp : 0 < p) (tm : Nat)
    (h : ∀ k, ∃ i, info k = some i ∧
      ¬(i.status = "Completed" ∨ i.status = "Reports failed") ∧
      ¬(i.status = "Failed" ∨ i.status = "Canceled")) :
    ∀ n, ∃ m, wait_for_order_completion_go info oid p hp tm n = (.timedOut oid tm, m) ∧
      tm * 60 < m * p ∧ n ≤ m := by
  have main : ∀ fuel n, tm * 60 + 1 - n * p ≤ fuel →
      ∃ m, wait_for_order_completion_go info oid p hp tm n = (.timedOut oid tm, m) ∧
        tm * 60 < m * p ∧ n ≤ m := by
    intro fuel
    induction fuel with
    | zero =>
      intro n hf
      have hn : tm * 60 < n * p := by omega
      obtain ⟨i, hi, hns, hnf⟩ := h n
      exact ⟨n, by rw [woc_go_step_some info oid p hp tm n i hi, if_neg hns, if_neg hnf,
        if_pos hn], hn, le_rfl⟩
    | succ fuel ih =>
      intro n hf
      obtain ⟨i, hi, hns, hnf⟩ := h n
      by_cases hn : tm * 60 < n * p
      · exact ⟨n, by rw [woc_go_step_some info oid p hp tm n i hi, if_neg hns, if_neg hnf,
          if_pos hn], hn, le_rfl⟩
      · have hmul : (n + 1) * p = n * p + p := by ring
        obtain ⟨m, hm, hmt, hle⟩ := ih (n + 1) (by omega)
        refine ⟨m, ?_, hmt, by omega⟩
        rw [woc_go_step_some info oid p hp tm n i hi, if_neg hns, if_neg hnf, if_neg hn]
        exact hm
  intro n
  exact main (tm * 60 + 1) n (by omega)

/-! ## Claim C6 -/

/-- C6 (amended): for both poll loops, over a time-indexed environment
(`f`/`g` give the server state at elapsed second `t`, and iteration `k`
polls at `t = k * p`): once the check becomes ready at time `T` (within
budget), the loop returns at the first poll at or after `T`, so within
one poll interval of readiness; if the check never becomes ready, the
loop raises its timeout error strictly after `timeout_minutes * 60`
seconds of elapsed time — the error carries the configured
`timeout_minutes` (and, for the order wait, the order id), not the
elapsed duration nor the last observed state. -/
theorem c6_poll_return_and_timeout (f : Nat → Option FileStatus)
    (g : Nat → Option OrderInfo) (fid oid : String) (p T tm : Nat) (hp : 0 < p) :
    ((T ≤ tm * 60) →
     (∀ t, t < T → ∃ s, f t = some s ∧ fileValidated s = false) →
     (∀ t, T ≤ t → ∃ s, f t = some s ∧ fileValidated s = true) →
      ∃ n, wait_for_file_validation (fun k => f (k * p)) fid p hp tm = (.validated, n) ∧
        T ≤ n * p ∧ n * p < T + p) ∧
    ((∀ t, ∃ s, f t = some s ∧ fileValidated s = false) →
      ∃ n, wait_for_file_validation (fun k => f (k * p)) fid p hp tm = (.timedOut tm, n) ∧
        tm * 60 < n * p) ∧
    ((T ≤ tm * 60) →
     (∀ t, t < T → ∃ i, g t = some i ∧
        ¬(i.status = "Completed" ∨ i.status = "Reports failed") ∧
        ¬(i.status = "Failed" ∨ i.status = "Canceled")) →
     (∀ t, T ≤ t → ∃ i, g t = some i ∧
        (i.status = "Completed" ∨ i.status = "Reports failed")) →
      ∃ n i, g (n * p) = some i ∧
        wait_for_order_completion (fun k => g (k * p)) oid p hp tm
          = (.completed i.result_types, n) ∧ T ≤ n * p ∧ n * p < T + p) ∧
    ((∀ t, ∃ i, g t = some i ∧
        ¬(i.status = "Completed" ∨ i.status = "Reports failed") ∧
        ¬(i.status = "Failed" ∨ i.status = "Canceled")) →
      ∃ n, wait_for_order_completion (fun k => g (k * p)) oid p hp tm
        = (.timedOut oid tm, n) ∧ tm * 60 < n * p) := by
  have hex : ∃ k, T ≤ k * p := by
    refine ⟨T, ?_⟩
    calc T = T * 1 := by ring
    _ ≤ T * p := Nat.mul_le_mul_left T hp
  have hN : T ≤ Nat.find hex * p := Nat.find_spec hex
  have hmin : ∀ k, k < Nat.find hex → ¬ T ≤ k * p := fun k hk => Nat.find_min hex hk
  have hup : Nat.find hex * p < T + p := by
    rcases Nat.eq_zero_or_pos (Nat.find hex) with h0 | hpos
    · rw [h0] at hN ⊢
      simp at hN ⊢
      omega
    · have hlast := hmin (Nat.find hex - 1) (by omega)
      have heq : Nat.find hex * p = (Nat.find hex - 1) * p + p := by
        have hsub : Nat.find hex = (Nat.find hex - 1) + 1 := by omega
        calc Nat.find hex * p = ((Nat.find hex - 1) + 1) * p := by rw [← hsub]
        _ = (Nat.find hex - 1) * p + p := by ring
      omega
  refine ⟨?_, ?_, ?_, ?_⟩
  · intro hbud h1 h2
    refine ⟨Nat.find hex, ?_, hN, hup⟩
    rw [wait_for_file_validation]
    have := wfv_go_ready (fun k => f (k * p)) fid p hp tm (Nat.find hex) 0
      (fun k _ hk => by
        obtain ⟨s, hs, hnr⟩ := h1 (k * p) (by
          have := hmin k (by omega)
          omega)
        exact ⟨s, hs, hnr, by
          have := hmin k (by omega)
          omega⟩)
      (by
        obtain ⟨s, hs, hr⟩ := h2 ((0 + Nat.find hex) * p) (by simpa using hN)
        exact ⟨s, hs, hr⟩)
    simpa using this
  · intro h
    obtain ⟨m, hm, hmt, -⟩ := wfv_go_timeout (fun k => f (k * p)) fid p hp tm
      (fun k => h (k * p)) 0
    exact ⟨m, by rw [wait_for_file_validation]; exact hm, hmt⟩
  · intro hbud h1 h2
    obtain ⟨i, hi, hr⟩ := h2 (Nat.find hex * p) hN
    refine ⟨Nat.find hex, i, hi, ?_, hN, hup⟩
    rw [wait_for_order_completion]
    have := woc_go_ready (fun k => g (k * p)) oid p hp tm (Nat.find hex) 0
      (fun k _ hk => by
        obtain ⟨j, hj, hns, hnf⟩ := h1 (k * p) (by
          have := hmin k (by omega)
          omega)
        exact ⟨j, hj, hns, hnf, by
          have := hmin k (by omega)
          omega⟩)
      i (by simpa using hi) hr
    simpa using this
  · intro h
    obtain ⟨m, hm, hmt, -⟩ := woc_go_timeout (fun k => g (k * p)) oid p hp tm
      (fun k => h (k * p)) 0
    exact ⟨m, by rw [wait_for_order_completion]; exact hm, hmt⟩

/-- Counterexample to C6 as stated: the claim says the timeout error
carries the elapsed duration and the last observed state.  Two
validation runs that differ in every observed status (all-false flags
versus a half-validated record) raise *identical* timeout errors, and
two runs whose elapsed times at the raise differ (120s versus 90s,
under different poll intervals) also raise identical errors: the
`TimeoutError` payload holds only the configured `timeout_minutes`, so
it cannot carry either datum. -/
theorem c6_counterexample :
    wait_for_file_validation (fun _ => some ⟨false, false, 0⟩) "f" 60 (by decide) 1
      = (.timedOut 1, 2) ∧
    wait_for_file_validation (fun _ => some ⟨true, false, 5⟩) "f" 60 (by decide) 1
      = (.timedOut 1, 2) ∧
    (some (FileStatus.mk false false 0) ≠ some (FileStatus.mk true false 5)) ∧
    wait_for_file_validation (fun _ => some ⟨false, false, 0⟩) "f" 90 (by decide) 1
      = (.timedOut 1, 1) ∧
    2 * 60 ≠ 1 * 90 := by
  refine ⟨?_, ?_, by decide, ?_, by decide⟩ <;>
    simp [wait_for_file_validation, wait_for_file_validation_go, fileValidated]

/-- Witness for C6: validation readiness arriving at `T = 45` seconds
with a 60-second interval makes the loop return at the first poll at or
after 45s, i.e. at 60s — within one interval of readiness. -/
theorem c6_witness :
    ∃ n, wait_for_file_validation
      (fun k => if k * 60 < 45 then some ⟨false, false, 0⟩ else some ⟨true, true, 2⟩)
      "fid-6" 60 (by decide) 300 = (.validated, n) ∧ 45 ≤ n * 60 ∧ n * 60 < 45 + 60 :=
  (c6_poll_return_and_timeout
    (fun t => if t < 45 then some ⟨false, false, 0⟩ else some ⟨true, true, 2⟩)
    (fun _ => none) "fid-6" "o" 60 45 300 (by decide)).1
    (by omega)
    (fun t ht => ⟨⟨false, false, 0⟩, by simp [ht], rfl⟩)
    (fun t ht => ⟨⟨true, true, 2⟩, by simp [Nat.not_lt.mpr ht], rfl⟩)

/-! ## Claim C1 -/

/-- C1 (amended): for a request issued through `safe_api_call` with the
default retry budget 1: a success status returns at once with a single
request event; a non-401 error status propagates at once with no
refresh, no re-auth and no retry; on a 401, if a refresh token is held,
exactly one refresh HTTP call is made — if it succeeds, or if it fails
with a `requests`-level error and the fallback `auth` succeeds, the
original request is retried exactly once with the new access token in
its Authorization header and a failure of that retry (including a
second 401) propagates; if the fallback `auth` also fails, its error
propagates with no retry; but on a 401 with no (truthy) refresh token
held, `refresh_tokens`'s `RuntimeError` propagates with no re-auth and
no retry, because `safe_api_call` catches only
`requests.exceptions.RequestException`. -/
theorem c1_safe_api_call_single_retry (env : CallEnv) (kw : Option String)
    (st : TokenStore) :
    (env.doReq 0 kw < 400 →
      safe_api_call env kw 1 st 0 =
        (.ok (env.doReq 0 kw), st, [.request kw (env.doReq 0 kw)])) ∧
    (400 ≤ env.doReq 0 kw → env.doReq 0 kw ≠ 401 →
      safe_api_call env kw 1 st 0 =
        (.error (.reqError (.httpError (env.doReq 0 kw))), st,
         [.request kw (env.doReq 0 kw)])) ∧
    (∀ tp, env.doReq 0 kw = 401 → pyTruthy st.refresh = true →
      env.refreshSrv (st.refresh.getD "") = .ok tp →
      safe_api_call env kw 1 st 0 =
        ((if env.doReq 1 (kw.map fun _ => tp.access) < 400
          then .ok (env.doReq 1 (kw.map fun _ => tp.access))
          else .error (.reqError (.httpError (env.doReq 1 (kw.map fun _ => tp.access))))),
         ⟨some tp.access, some tp.refresh⟩,
         [.request kw 401, .refreshHttp,
          .request (kw.map fun _ => tp.access)
            (env.doReq 1 (kw.map fun _ => tp.access))])) ∧
    (∀ e tp, env.doReq 0 kw = 401 → pyTruthy st.refresh = true →
      env.refreshSrv (st.refresh.getD "") = .error e → env.authSrv = .ok tp →
      safe_api_call env kw 1 st 0 =
        ((if env.doReq 1 (kw.map fun _ => tp.access) < 400
          then .ok (env.doReq 1 (kw.map fun _ => tp.access))
          else .error (.reqError (.httpError (env.doReq 1 (kw.map fun _ => tp.access))))),
         ⟨some tp.access, some tp.refresh⟩,
         [.request kw 401, .refreshHttp, .authHttp,
          .request (kw.map fun _ => tp.access)
            (env.doReq 1 (kw.map fun _ => tp.access))])) ∧
    (∀ e e2, env.doReq 0 kw = 401 → pyTruthy st.refresh = true →
      env.refreshSrv (st.refresh.getD "") = .error e → env.authSrv = .error e2 →
      safe_api_call env kw 1 st 0 =
        (.error (.reqError e2), st, [.request kw 401, .refreshHttp, .authHttp])) ∧
    (env.doReq 0 kw = 401 → pyTruthy st.refresh = false →
      safe_api_call env kw 1 st 0 =
        (.error (.runtimeError "No refresh token available; cannot refresh."), st,
         [.request kw 401])) := by
  refine ⟨?_, ?_, ?_, ?_, ?_, ?_⟩
  · intro h
    rw [safe_api_call]
    simp [h]
  · intro h h2
    rw [safe_api_call]
    simp [Nat.not_lt.mpr h, h2]
  · intro tp h401 ht hr
    by_cases hs1 : env.doReq 1 (kw.map fun _ => tp.access) < 400 <;>
      simp [safe_api_call, refresh_tokens, bearerOf, h401, ht, hr, hs1]
  · intro e tp h401 ht hr ha
    by_cases hs1 : env.doReq 1 (kw.map fun _ => tp.access) < 400 <;>
      simp [safe_api_call, refresh_tokens, auth, bearerOf, h401, ht, hr, ha, hs1]
  · intro e e2 h401 ht hr ha
    simp [safe_api_call, refresh_tokens, auth, h401, ht, hr, ha]
  · intro h401 hf
    simp [safe_api_call, refresh_tokens, h401, hf]

/-- Witness for C1: a 401 answered by a successful refresh leads to
exactly one refresh call and one retry carrying the new access token,
which succeeds. -/
theorem c1_witness :
    safe_api_call
      ⟨⟨.ok ⟨"AA", "AR"⟩, fun _ => .ok ⟨"NA", "NR"⟩⟩,
       fun i _ => if i = 0 then 401 else 200⟩
      (some "old") 1 ⟨some "old", some "R0"⟩ 0
      = (.ok 200, ⟨some "NA", some "NR"⟩,
         [.request (some "old") 401, .refreshHttp, .request (some "NA") 200]) := by
  have h := (c1_safe_api_call_single_retry
    ⟨⟨.ok ⟨"AA", "AR"⟩, fun _ => .ok ⟨"NA", "NR"⟩⟩,
     fun i _ => if i = 0 then 401 else 200⟩
    (some "old") ⟨some "old", some "R0"⟩).2.2.1 ⟨"NA", "NR"⟩ rfl (by decide) rfl
  simpa using h

/-- Counterexample to C1 as stated: the claim says a refresh failure
for *any* reason triggers a full re-authentication followed by exactly
one retry.  Here the wrapped request gets a 401 while the stored
refresh token is empty (a state `auth()` itself produces when the
server's 2xx body has an empty `refresh` field); `refresh_tokens`
raises its `RuntimeError`, which `except requests.exceptions.
RequestException` does not catch, so the error propagates: the trace
shows a single request, no re-auth HTTP call and no retry, although the
auth endpoint stood ready to hand out fresh tokens. -/
theorem c1_counterexample :
    safe_api_call
      ⟨⟨.ok ⟨"AA", "AR"⟩, fun _ => .ok ⟨"NA", "NR"⟩⟩, fun _ _ => 401⟩
      (some "tok") 1 ⟨some "tok", some ""⟩ 0
      = (.error (.runtimeError "No refresh token available; cannot refresh."),
         ⟨some "tok", some ""⟩, [.request (some "tok") 401]) ∧
    List.count CallEvent.authHttp
      (safe_api_call ⟨⟨.ok ⟨"AA", "AR"⟩, fun _ => .ok ⟨"NA", "NR"⟩⟩, fun _ _ => 401⟩
        (some "tok") 1 ⟨some "tok", some ""⟩ 0).2.2 = 0 ∧
    List.count CallEvent.refreshHttp
      (safe_api_call ⟨⟨.ok ⟨"AA", "AR"⟩, fun _ => .ok ⟨"NA", "NR"⟩⟩, fun _ _ => 401⟩
        (some "tok") 1 ⟨some "tok", some ""⟩ 0).2.2 = 0 ∧
    List.length
      (safe_api_call ⟨⟨.ok ⟨"AA", "AR"⟩, fun _ => .ok ⟨"NA", "NR"⟩⟩, fun _ _ => 401⟩
        (some "tok") 1 ⟨some "tok", some ""⟩ 0).2.2 = 1 := by
  have hie : ("".isEmpty) = true := by decide
  refine ⟨?_, ?_, ?_, ?_⟩ <;>
    simp [safe_api_call, refresh_tokens, pyTruthy, hie]
